import Mathlib

/-!
Shallow embedding of the grid editor in src/main.py: the geometric shape
model, the control (UIElement) model, the editor state, and the key event
state machine (on_grid_key and its helpers).  Python dictionaries are
modeled as insertion ordered association lists, Python integers as
unbounded integers, and wall clock times as integers counting
milliseconds, so the half second double press window of the source is the
literal 500 here.  The random identifier
generator is modeled by its observable contract: it returns an identifier
that is not in the supplied collection of existing identifiers (the source
draws random six character codes and redraws on collision; only freshness
of the result is observable in the editor state).  The method
deselect_element in the source calls a method reset_brightness that no
class defines, so every call to it raises AttributeError; the event step
function therefore returns a Boolean flag that is true exactly when the
handler raised.  Selection is stored in the source as a reference to the
element object that is always an entry of the ui_elements dictionary; it
is modeled here as the key of that entry, and mutation of the selected
object is modeled as an update of the map at that key.
-/

namespace GridSpec

/-- Grid coordinates, as pairs of integers. -/
abbrev Pt : Type := ℤ × ℤ

/-- Shape kinds of the source: the classes Point, Rectangle and Triangle. -/
inductive ShapeKind : Type
  | point
  | rectangle
  | triangle
deriving DecidableEq

/-- Model of the Shape classes: a kind tag plus the stored vertex list. -/
structure Shape : Type where
  kind : ShapeKind
  points : List Pt
deriving DecidableEq

/-- Model of the local function sign in Triangle.contains_point. -/
def triSign (p1 p2 p3 : Pt) : ℤ :=
  (p1.1 - p3.1) * (p2.2 - p3.2) - (p2.1 - p3.1) * (p1.2 - p3.2)

/-- Model of contains_point of Point, Rectangle and Triangle.  Indexing of
the vertex list follows the source (points[0], points[1], points[2]); in
every state the state machine produces, the list has the arity of the kind,
and headI supplies the same elements there. -/
def Shape.contains_point (s : Shape) (x y : ℤ) : Bool :=
  match s.kind with
  | ShapeKind.point => decide ((x, y) = s.points.headI)
  | ShapeKind.rectangle =>
      let p1 := s.points.headI
      let p2 := (s.points.drop 1).headI
      decide (min p1.1 p2.1 ≤ x ∧ x ≤ max p1.1 p2.1 ∧
              min p1.2 p2.2 ≤ y ∧ y ≤ max p1.2 p2.2)
  | ShapeKind.triangle =>
      if s.points.length < 3 then false
      else
        let q0 := s.points.headI
        let q1 := (s.points.drop 1).headI
        let q2 := (s.points.drop 2).headI
        let b1 := decide (triSign (x, y) q0 q1 < 0)
        let b2 := decide (triSign (x, y) q1 q2 < 0)
        let b3 := decide (triSign (x, y) q2 q0 < 0)
        (b1 == b2) && (b2 == b3)

/-- Variant tags of the source classes Trigger, Toggle and Slider. -/
inductive UIElementType : Type
  | trigger
  | toggle
  | slider
deriving DecidableEq

/-- Model of a UIElement object, with the defaults of the constructor. -/
structure UIElement : Type where
  id : ℕ
  etype : UIElementType
  shape : Shape
  state : ℤ := 0
  flash_start : ℤ := 0
  base_brightness : ℤ := 3
  peak_brightness : ℤ := 10
deriving DecidableEq

/-- Model of UIElement.contains_point: delegation to the shape. -/
def UIElement.contains_point (e : UIElement) (x y : ℤ) : Bool :=
  e.shape.contains_point x y

/-- Model of the touch methods: the base method records the time, Trigger
flips its state on a press, Toggle mirrors the press signal, Slider only
inherits the base method. -/
def UIElement.touch (e : UIElement) (t : ℤ) (s : ℤ) : UIElement :=
  let e2 := { e with flash_start := t }
  match e2.etype with
  | UIElementType.trigger => if s = 1 then { e2 with state := 1 - e2.state } else e2
  | UIElementType.toggle => { e2 with state := s }
  | UIElementType.slider => e2

/-- Model of UIElement.clip_brightness. -/
def UIElement.clip_brightness (e : UIElement) : UIElement :=
  { e with base_brightness := max 0 (min e.base_brightness 13),
           peak_brightness := max 2 (min e.peak_brightness 15) }

/-- Model of UIElement.adjust_brightness. -/
def UIElement.adjust_brightness (e : UIElement) (delta : ℤ) : UIElement :=
  UIElement.clip_brightness
    { e with base_brightness := e.base_brightness + delta,
             peak_brightness := e.peak_brightness + delta }

/-- Models the contract of generate_unique_id in the source: the returned
identifier is not among the existing identifiers. -/
def generate_unique_id (existing : List ℕ) : ℕ :=
  existing.foldr max 0 + 1

/-- Model of the mutable state of the GridUI object, after the grid is
ready (width and height fixed, connected true). -/
structure GridState : Type where
  width : ℤ
  height : ℤ
  connected : Bool
  meta_pressed : Bool
  selected_element : Option ℕ
  delete_press_time : ℤ
  delete_press_count : ℕ
  paste_buffer : Option UIElement
  meta_history : List Pt
  ui_elements : List (ℕ × UIElement)
  current_points : List Pt
deriving DecidableEq

/-- Model of GridUI.reset: everything is cleared except the paste buffer
(the source comment states the buffer is kept across resets). -/
def GridState.reset (g : GridState) : GridState :=
  { g with ui_elements := [], current_points := [], meta_pressed := false,
           selected_element := none, delete_press_time := 0,
           delete_press_count := 0, meta_history := [] }

/-- State of a freshly connected session of a w by h grid: the constructor
defaults followed by on_grid_ready (dimensions set, connected, reset). -/
def initState (w h : ℤ) : GridState :=
  GridState.reset
    { width := w, height := h, connected := true, meta_pressed := false,
      selected_element := none, delete_press_time := 0, delete_press_count := 0,
      paste_buffer := none, meta_history := [], ui_elements := [],
      current_points := [] }

/-- Keys of the ui_elements dictionary. -/
def keys (g : GridState) : List ℕ := g.ui_elements.map Prod.fst

/-- Dictionary lookup in ui_elements. -/
def lookupElement (g : GridState) (i : ℕ) : Option UIElement :=
  (g.ui_elements.find? (fun kv => kv.1 == i)).map Prod.snd

/-- In place mutation of the element object stored under a key. -/
def updateElement (g : GridState) (i : ℕ) (f : UIElement → UIElement) : GridState :=
  { g with ui_elements :=
      g.ui_elements.map (fun kv => if kv.1 = i then (kv.1, f kv.2) else kv) }

/-- Model of the loop in handle_normal_interaction: the first element that
contains the coordinate receives the touch, then the loop breaks. -/
def touchFirst (l : List (ℕ × UIElement)) (x y : ℤ) (t : ℤ) (s : ℤ) :
    List (ℕ × UIElement) :=
  match l with
  | [] => []
  | kv :: rest =>
      if kv.2.contains_point x y then (kv.1, kv.2.touch t s) :: rest
      else kv :: touchFirst rest x y t s

/-- Model of GridUI.get_element_at_position: the first entry (in insertion
order) whose element contains the coordinate, with its key. -/
def get_element_at_position (g : GridState) (x y : ℤ) : Option (ℕ × UIElement) :=
  g.ui_elements.find? (fun kv => kv.2.contains_point x y)

/-- Maximum of an integer list, defined for the nonempty lists the source
applies the Python max builtin to. -/
def listMax (l : List ℤ) : ℤ := l.foldl max l.headI

/-- Minimum of an integer list, defined for the nonempty lists the source
applies the Python min builtin to. -/
def listMin (l : List ℤ) : ℤ := l.foldl min l.headI

/-- Model of GridUI.get_meta_ui_position. -/
def get_meta_ui_position (g : GridState) (e : UIElement) : Pt :=
  let max_x := listMax (e.shape.points.map Prod.fst)
  let min_y := listMin (e.shape.points.map Prod.snd)
  let meta_x := max_x + 1
  let meta_x2 := if meta_x ≥ g.width - 1 then max_x - 2 else meta_x
  let meta_x3 := max 0 (min (g.width - 2) meta_x2)
  let meta_y := max 0 (min (g.height - 1) min_y)
  (meta_x3, meta_y)

/-- Model of GridUI.get_edges: vertex i joined with vertex (i+1) mod n. -/
def get_edges (points : List Pt) : List (Pt × Pt) :=
  (List.range points.length).map
    (fun i => (points.getD i (0, 0), points.getD ((i + 1) % points.length) (0, 0)))

/-- Model of the local function ccw in GridUI.lines_intersect. -/
def ccw (a b c : Pt) : Bool :=
  decide ((c.2 - a.2) * (b.1 - a.1) > (b.2 - a.2) * (c.1 - a.1))

/-- Model of GridUI.lines_intersect. -/
def lines_intersect (l1 l2 : Pt × Pt) : Bool :=
  (ccw l1.1 l2.1 l2.2 != ccw l1.2 l2.1 l2.2) &&
  (ccw l1.1 l1.2 l2.1 != ccw l1.1 l1.2 l2.2)

/-- The shape level content of GridUI.check_overlap: vertex containment in
both directions, then pairwise edge crossing. -/
def shapes_overlap (s1 s2 : Shape) : Bool :=
  s1.points.any (fun p => s2.contains_point p.1 p.2) ||
  s2.points.any (fun p => s1.contains_point p.1 p.2) ||
  (get_edges s1.points).any (fun a =>
    (get_edges s2.points).any (fun b => lines_intersect a b))

/-- Model of GridUI.check_overlap, which only reads the two shapes. -/
def check_overlap (e1 e2 : UIElement) : Bool :=
  shapes_overlap e1.shape e2.shape

/-- Model of GridUI.elements_overlap: overlap of the candidate against any
existing element. -/
def elements_overlap (g : GridState) (e : UIElement) : Bool :=
  g.ui_elements.any (fun kv => check_overlap e kv.2)

/-- Model of GridUI.element_in_bottom_row. -/
def element_in_bottom_row (g : GridState) (e : UIElement) : Bool :=
  e.shape.points.any (fun p => p.2 == g.height - 1)

/-- Model of appending to the five slot deque meta_history. -/
def dequeAppend (h : List Pt) (p : Pt) : List Pt :=
  let h2 := h ++ [p]
  h2.drop (h2.length - 5)

/-- Model of GridUI.last_pressed_was_copy_delete: the history holds at
least two entries and the second to last one is the copy and delete cell. -/
def last_pressed_was_copy_delete (g : GridState) : Bool :=
  decide (2 ≤ g.meta_history.length) &&
  (g.meta_history.getD (g.meta_history.length - 2) (0, 0) == (1, g.height - 1))

/-- Model of GridUI.copy_selected_element: a deep copy of the selected
element object goes into the paste buffer. -/
def copy_selected_element (g : GridState) : GridState :=
  match g.selected_element.bind (fun sid => lookupElement g sid) with
  | some e => { g with paste_buffer := some e }
  | none => g

/-- Model of GridUI.delete_selected_element: the entry whose value is the
selected object is removed, and the selection is cleared. -/
def delete_selected_element (g : GridState) : GridState :=
  match g.selected_element with
  | none => g
  | some sid =>
      { g with ui_elements := g.ui_elements.eraseP (fun kv => kv.1 == sid),
               selected_element := none }

/-- Translation of a shape by an offset, as in GridUI.paste_element. -/
def translateShape (s : Shape) (dx dy : ℤ) : Shape :=
  { s with points := s.points.map (fun p => (p.1 + dx, p.2 + dy)) }

/-- The clone built inside GridUI.paste_element: the buffered element with
its shape translated so that its first vertex lands on the target.  Note
the id field of the clone is not reassigned in the source. -/
def pasteMoved (buf : UIElement) (x y : ℤ) : UIElement :=
  { buf with shape := translateShape buf.shape (x - buf.shape.points.headI.1)
                        (y - buf.shape.points.headI.2) }

/-- Model of GridUI.paste_element. -/
def paste_element (g : GridState) (x y : ℤ) : GridState :=
  match g.paste_buffer with
  | none => g
  | some buf =>
      let moved := pasteMoved buf x y
      if element_in_bottom_row g moved || elements_overlap g moved then g
      else
        let nid := generate_unique_id (keys g)
        { g with ui_elements := g.ui_elements ++ [(nid, moved)],
                 selected_element := some nid }

/-- The accept or reject step shared by the three creation arms of
GridUI.create_ui_element. -/
def create_with (g : GridState) (sh : Shape) : GridState :=
  let nid := generate_unique_id (keys g)
  let e : UIElement := { id := nid, etype := UIElementType.trigger, shape := sh }
  if !element_in_bottom_row g e && !elements_overlap g e then
    { g with ui_elements := g.ui_elements ++ [(nid, e)], current_points := [] }
  else g

/-- Model of GridUI.create_ui_element: two buffered points give a
Rectangle, three a Triangle, one a Point, anything else is a warning. -/
def create_ui_element (g : GridState) : GridState :=
  if g.current_points.length = 2 then
    create_with g ⟨ShapeKind.rectangle, g.current_points⟩
  else if g.current_points.length = 3 then
    create_with g ⟨ShapeKind.triangle, g.current_points⟩
  else if g.current_points.length = 1 then
    create_with g ⟨ShapeKind.point, g.current_points⟩
  else g

/-- A key event: coordinate, press signal (1 press, 0 release), and the
wall clock time at which the handler runs. -/
structure Event : Type where
  x : ℤ
  y : ℤ
  s : ℤ
  t : ℤ
deriving DecidableEq

/-- Model of GridUI.handle_normal_interaction: the bottom row is dropped,
otherwise the first containing element is touched. -/
def handle_normal_interaction (g : GridState) (e : Event) : GridState :=
  if e.y = g.height - 1 then g
  else { g with ui_elements := touchFirst g.ui_elements e.x e.y e.t e.s }

/-- The tail of handle_meta_interaction after the history and point buffer
updates: selection or paste for a press that hit no reserved cell.  The
Boolean is true when the handler raised AttributeError inside
deselect_element (the method reset_brightness does not exist), which in
the source happens before the new selection value is assigned. -/
def metaFallthrough (g : GridState) (e : Event) : GridState × Bool :=
  if e.y < g.height - 1 then
    match get_element_at_position g e.x e.y with
    | some (tid, _) =>
        if g.selected_element.isSome ∧ g.selected_element ≠ some tid then
          (g, true)
        else
          ({ g with selected_element := some tid, delete_press_count := 0 }, false)
    | none =>
        if g.paste_buffer.isSome ∧ last_pressed_was_copy_delete g = true then
          (paste_element g e.x e.y, false)
        else if g.selected_element.isSome then
          (g, true)
        else (g, false)
  else (g, false)

/-- The selected element block of handle_meta_interaction: the increment,
decrement and copy or delete cells, checked only while a selection exists
(the selected object is resolved through its key, which the selection
invariant keeps present in the map). -/
def handle_meta_selected (g : GridState) (e : Event) : GridState × Bool :=
  match g.selected_element.bind
      (fun sid => (lookupElement g sid).map (fun el => (sid, el))) with
  | some (sid, el) =>
      let mpos := get_meta_ui_position g el
      if (e.x, e.y) = mpos then
        (updateElement g sid (fun u => u.adjust_brightness 1), false)
      else if (e.x, e.y) = (mpos.1 + 1, mpos.2) then
        (updateElement g sid (fun u => u.adjust_brightness (-1)), false)
      else if (e.x, e.y) = (1, g.height - 1) then
        if e.t - g.delete_press_time < 500 then
          (delete_selected_element g, false)
        else
          ({ copy_selected_element g with delete_press_time := e.t }, false)
      else metaFallthrough g e
  | none => metaFallthrough g e

/-- The opening mutations of handle_meta_interaction for a press: record
the press in the history deque, and buffer the coordinate when it is
outside the bottom row and not yet buffered. -/
def metaBufferUpdate (g : GridState) (e : Event) : GridState :=
  let g1 := { g with meta_history := dequeAppend g.meta_history (e.x, e.y) }
  if e.y < g1.height - 1 ∧ (e.x, e.y) ∉ g1.current_points
  then { g1 with current_points := g1.current_points ++ [(e.x, e.y)] }
  else g1

/-- Model of GridUI.handle_meta_interaction: a press is recorded in the
history deque, buffered when outside the bottom row and not yet buffered,
then dispatched. -/
def handle_meta_interaction (g : GridState) (e : Event) : GridState × Bool :=
  if e.s ≠ 1 then (g, false)
  else handle_meta_selected (metaBufferUpdate g e) e

/-- The meta key cell branch of on_grid_key, applied to the state whose
meta_pressed flag was just assigned: a release commits the buffered
creation gesture and clears the selection and the point buffer. -/
def metaKeyStep (g : GridState) : GridState × Bool :=
  if g.meta_pressed then (g, false)
  else
    ({ create_ui_element g with selected_element := none, current_points := [] },
     false)

/-- Model of GridUI.on_grid_key.  The Boolean is true when the handler
raised AttributeError; the returned state is the state mutated up to that
point, since the source mutates in place. -/
def on_grid_key (g : GridState) (e : Event) : GridState × Bool :=
  if g.connected = false then (g, false)
  else if e.x = 0 ∧ e.y = g.height - 1 then
    metaKeyStep { g with meta_pressed := decide (e.s = 1) }
  else if g.meta_pressed = true then handle_meta_interaction g e
  else (handle_normal_interaction g e, false)

/-- Folding a list of key events through the step function. -/
def runEvents (g : GridState) (es : List Event) : GridState :=
  es.foldl (fun s e => (on_grid_key s e).1) g

/-- True when some event of the list made the handler raise. -/
def runEventsErr (g : GridState) (es : List Event) : Bool :=
  (es.foldl (fun p e =>
      let r := on_grid_key p.1 e
      (r.1, p.2 || r.2)) (g, false)).2

/-- States reachable from a fresh session by key events and resets. -/
inductive Reachable : GridState → Prop
  | init (w h : ℤ) : Reachable (initState w h)
  | step (g : GridState) (e : Event) : Reachable g → Reachable (on_grid_key g e).1
  | reset (g : GridState) : Reachable g → Reachable g.reset

/-- The shape level editor invariant: no vertex in the bottom row, and no
two stored shapes overlap. -/
def ShapeInv (hgt : ℤ) (ss : List Shape) : Prop :=
  (∀ s ∈ ss, ∀ p ∈ s.points, p.2 ≠ hgt - 1) ∧
  ss.Pairwise (fun a b => shapes_overlap a b = false)

/-- The shapes stored in the editor, in insertion order. -/
def shapesOf (g : GridState) : List Shape :=
  g.ui_elements.map (fun kv => kv.2.shape)

/-- The editor invariant of a state. -/
def Inv (g : GridState) : Prop := ShapeInv g.height (shapesOf g)

/-- Shorthand for building events. -/
def ev (x y s t : ℤ) : Event := ⟨x, y, s, t⟩

/-- Normal mode trace of the C1 scenario: press at (1,1), release at (3,3). -/
def traceC1cex : List Event := [ev 1 1 1 0, ev 3 3 0 0]

/-- Meta mode creation gesture for the rectangle, then a normal press. -/
def traceC1meta : List Event :=
  [ev 0 7 1 0, ev 1 1 1 0, ev 3 3 1 0, ev 0 7 0 0, ev 2 2 1 1]

/-- Meta key down, then a press at (0,0) on an empty grid. -/
def traceC3cex : List Event := [ev 0 7 1 0, ev 0 0 1 0]

/-- The same gesture completed by releasing the meta key. -/
def traceC3meta : List Event := traceC3cex ++ [ev 0 7 0 1]

/-- Copy at time 10000, delete at 10400, reselect, press the cell at
time 10800 (milliseconds). -/
def traceC5 : List Event :=
  [ev 0 7 1 1000, ev 2 2 1 1000, ev 0 7 0 1000,
   ev 0 7 1 2000, ev 5 5 1 2000, ev 0 7 0 2000,
   ev 0 7 1 10000, ev 2 2 1 10000, ev 1 7 1 10000,
   ev 1 7 1 10400, ev 5 5 1 10700, ev 1 7 1 10800]

/-- Create a point control, select it, copy it, paste it at (5,5). -/
def traceC6 : List Event :=
  [ev 0 7 1 0, ev 2 2 1 0, ev 0 7 0 0,
   ev 0 7 1 5000, ev 2 2 1 5000, ev 1 7 1 5000, ev 5 5 1 5000]

/-- Create a point control, select it in meta mode, press an empty cell. -/
def traceC8 : List Event :=
  [ev 0 7 1 0, ev 2 2 1 0, ev 0 7 0 0,
   ev 0 7 1 1, ev 2 2 1 1, ev 5 5 1 1]

/-- Meta gesture that creates the rectangle of the C1 scenario. -/
def traceC2w : List Event := [ev 0 7 1 0, ev 1 1 1 0, ev 3 3 1 0, ev 0 7 0 0]

/-- Meta key down and one buffered press, used as a witness state. -/
def traceC10w : List Event := [ev 0 7 1 0, ev 2 2 1 0]

/-- A single point trigger control at (2,2), used in witness states. -/
def elemW : UIElement :=
  { id := 1, etype := UIElementType.trigger, shape := ⟨ShapeKind.point, [(2, 2)]⟩ }

/-- A meta mode state with elemW stored and selected, last copy at time
10000. -/
def gW5 : GridState :=
  { width := 8, height := 8, connected := true, meta_pressed := true,
    selected_element := some 1, delete_press_time := 10000, delete_press_count := 0,
    paste_buffer := none, meta_history := [], ui_elements := [(1, elemW)],
    current_points := [] }

/-- A meta mode state with elemW stored, selected and copied. -/
def gW6 : GridState :=
  { width := 8, height := 8, connected := true, meta_pressed := true,
    selected_element := some 1, delete_press_time := 10000, delete_press_count := 0,
    paste_buffer := some elemW, meta_history := [], ui_elements := [(1, elemW)],
    current_points := [] }

/-- Boolean equality from an equivalence of the truth conditions. -/
lemma bool_eq_of_iff {a b : Bool} (h : a = true ↔ b = true) : a = b := by
  cases a <;> cases b <;> simp_all

/-- The orientation test is invariant under a cyclic rotation of its three
arguments. -/
lemma ccw_cyclic (a b c : Pt) : ccw a b c = ccw b c a := by
  unfold ccw
  rw [decide_eq_decide]
  have key : (c.2 - a.2) * (b.1 - a.1) - (b.2 - a.2) * (c.1 - a.1)
      = (a.2 - b.2) * (c.1 - b.1) - (c.2 - b.2) * (a.1 - b.1) := by ring
  constructor <;> intro h <;> linarith

/-- The segment crossing test of the source is symmetric. -/
lemma lines_intersect_symm (l1 l2 : Pt × Pt) :
    lines_intersect l1 l2 = lines_intersect l2 l1 := by
  obtain ⟨a, b⟩ := l1
  obtain ⟨c, d⟩ := l2
  unfold lines_intersect
  dsimp only
  rw [ccw_cyclic c a b, ccw_cyclic d a b, ccw_cyclic c d a, ccw_cyclic d a c,
      ccw_cyclic c d b, ccw_cyclic d b c]
  exact Bool.and_comm _ _

/-- Swapping the two edge lists in the pairwise crossing search. -/
lemma any_swap (l1 l2 : List (Pt × Pt)) :
    (l1.any fun a => l2.any fun b => lines_intersect a b)
      = (l2.any fun a => l1.any fun b => lines_intersect a b) := by
  apply bool_eq_of_iff
  simp only [List.any_eq_true]
  constructor
  · rintro ⟨a, ha, b, hb, hi⟩
    exact ⟨b, hb, a, ha, (lines_intersect_symm a b) ▸ hi⟩
  · rintro ⟨b, hb, a, ha, hi⟩
    exact ⟨a, ha, b, hb, (lines_intersect_symm a b).symm ▸ hi⟩

/-- The overlap test of the source is symmetric. -/
lemma shapes_overlap_symm (s1 s2 : Shape) :
    shapes_overlap s1 s2 = shapes_overlap s2 s1 := by
  unfold shapes_overlap
  rw [any_swap]
  congr 1
  exact Bool.or_comm _ _

/-- Every member of a list of naturals is bounded by the folded maximum. -/
lemma le_foldr_max (a : ℕ) (l : List ℕ) (h : a ∈ l) : a ≤ l.foldr max 0 := by
  induction l with
  | nil => cases h
  | cons b t ih =>
      rcases List.mem_cons.mp h with rfl | h2
      · exact le_max_left _ _
      · exact le_trans (ih h2) (le_max_right _ _)

/-- The generated identifier is fresh for the supplied identifiers. -/
lemma generate_unique_id_not_mem (l : List ℕ) : generate_unique_id l ∉ l := by
  intro hmem
  have hle := le_foldr_max _ l hmem
  unfold generate_unique_id at hle
  omega

/-- The editor invariant only reads the height and the stored shapes. -/
lemma Inv_of_shapes (g2 g : GridState) (hh : g2.height = g.height)
    (hs : shapesOf g2 = shapesOf g) (h : Inv g) : Inv g2 := by
  unfold Inv
  rw [hh, hs]
  exact h

/-- A state with no stored elements satisfies the editor invariant. -/
lemma Inv_of_nil (g : GridState) (h : g.ui_elements = []) : Inv g := by
  unfold Inv shapesOf
  rw [h]
  exact ⟨by simp, List.Pairwise.nil⟩

/-- Touching an element does not change its shape. -/
lemma touch_shape (e : UIElement) (t : ℤ) (s : ℤ) : (e.touch t s).shape = e.shape := by
  obtain ⟨i, et, sh, st, fs, bb, pb⟩ := e
  cases et <;> by_cases hs : s = 1 <;> simp [UIElement.touch, hs]

/-- The touch loop of normal mode does not change any stored shape. -/
lemma touchFirst_shapes (l : List (ℕ × UIElement)) (x y : ℤ) (t : ℤ) (s : ℤ) :
    (touchFirst l x y t s).map (fun kv => kv.2.shape)
      = l.map (fun kv => kv.2.shape) := by
  induction l with
  | nil => rfl
  | cons kv rest ih =>
      unfold touchFirst
      split
      · simp [touch_shape]
      · simp [ih]

/-- Brightness adjustment does not change the shape. -/
lemma adjust_shape (e : UIElement) (d : ℤ) : (e.adjust_brightness d).shape = e.shape := rfl

/-- Updating one entry with a shape preserving mutation keeps the list of
stored shapes. -/
lemma map_shape_update (l : List (ℕ × UIElement)) (i : ℕ) (f : UIElement → UIElement)
    (hf : ∀ u, (f u).shape = u.shape) :
    (l.map (fun kv => if kv.1 = i then (kv.1, f kv.2) else kv)).map
        (fun kv => kv.2.shape)
      = l.map (fun kv => kv.2.shape) := by
  induction l with
  | nil => rfl
  | cons kv rest ih =>
      simp only [List.map_cons]
      rw [ih]
      congr 1
      split
      · exact hf kv.2
      · rfl

/-- Mutating the selected object in place preserves the stored shapes. -/
lemma updateElement_shapes (g : GridState) (i : ℕ) (f : UIElement → UIElement)
    (hf : ∀ u, (f u).shape = u.shape) :
    shapesOf (updateElement g i f) = shapesOf g :=
  map_shape_update g.ui_elements i f hf

/-- The shape invariant restricts along sublists. -/
lemma ShapeInv_sublist {hgt : ℤ} {l1 l2 : List Shape} (hs : l1.Sublist l2)
    (h : ShapeInv hgt l2) : ShapeInv hgt l1 :=
  ⟨fun s hsm p hp => h.1 s (hs.subset hsm) p hp, h.2.sublist hs⟩

/-- Appending a shape that avoids the bottom row and overlaps nothing
preserves the shape invariant. -/
lemma ShapeInv_append {hgt : ℤ} {ss : List Shape} {s : Shape}
    (h : ShapeInv hgt ss)
    (hb : ∀ p ∈ s.points, p.2 ≠ hgt - 1)
    (ho : ∀ s2 ∈ ss, shapes_overlap s s2 = false) :
    ShapeInv hgt (ss ++ [s]) := by
  constructor
  · intro s2 hs2 p hp
    rcases List.mem_append.mp hs2 with h2 | h2
    · exact h.1 s2 h2 p hp
    · rcases List.mem_singleton.mp h2 with rfl
      exact hb p hp
  · rw [List.pairwise_append]
    refine ⟨h.2, List.pairwise_singleton _ _, ?_⟩
    intro a ha b hb2
    rcases List.mem_singleton.mp hb2 with rfl
    rw [← shapes_overlap_symm]
    exact ho a ha

/-- Reading off the overlap guard: the candidate overlaps no stored shape. -/
lemma elements_overlap_eq_false {g : GridState} {e : UIElement}
    (h : elements_overlap g e = false) :
    ∀ s2 ∈ shapesOf g, shapes_overlap e.shape s2 = false := by
  intro s2 hs2
  unfold shapesOf at hs2
  rcases List.mem_map.mp hs2 with ⟨kv, hkv, rfl⟩
  unfold elements_overlap at h
  rw [List.any_eq_false] at h
  have hkv2 := h kv hkv
  unfold check_overlap at hkv2
  simpa using hkv2

/-- Reading off the bottom row guard: no vertex lies in the bottom row. -/
lemma bottom_row_eq_false {g : GridState} {e : UIElement}
    (h : element_in_bottom_row g e = false) :
    ∀ p ∈ e.shape.points, p.2 ≠ g.height - 1 := by
  intro p hp
  unfold element_in_bottom_row at h
  rw [List.any_eq_false] at h
  have hp2 := h p hp
  simpa using hp2

/-- The accept or reject step preserves the editor invariant. -/
lemma Inv_create_with (g : GridState) (sh : Shape) (h : Inv g) :
    Inv (create_with g sh) := by
  unfold create_with
  dsimp only
  split
  · rename_i hacc
    rw [Bool.and_eq_true, Bool.not_eq_true', Bool.not_eq_true'] at hacc
    obtain ⟨hrow, hov⟩ := hacc
    unfold Inv shapesOf at h ⊢
    dsimp only
    rw [List.map_append]
    exact ShapeInv_append h (bottom_row_eq_false hrow) (elements_overlap_eq_false hov)
  · exact h

/-- Creation from the point buffer preserves the editor invariant. -/
lemma Inv_create (g : GridState) (h : Inv g) : Inv (create_ui_element g) := by
  unfold create_ui_element
  split_ifs <;> first | exact Inv_create_with _ _ h | exact h

/-- Paste preserves the editor invariant. -/
lemma Inv_paste (g : GridState) (x y : ℤ) (h : Inv g) : Inv (paste_element g x y) := by
  unfold paste_element
  split
  · exact h
  · dsimp only
    split
    · exact h
    · rename_i buf heq hrej
      simp only [Bool.or_eq_true, not_or, Bool.not_eq_true] at hrej
      unfold Inv shapesOf at h ⊢
      dsimp only
      rw [List.map_append]
      exact ShapeInv_append h (bottom_row_eq_false hrej.1) (elements_overlap_eq_false hrej.2)

/-- Deletion preserves the editor invariant. -/
lemma Inv_delete (g : GridState) (h : Inv g) : Inv (delete_selected_element g) := by
  unfold delete_selected_element
  split
  · exact h
  · unfold Inv shapesOf at h ⊢
    dsimp only
    exact ShapeInv_sublist (List.Sublist.map _ (List.eraseP_sublist _)) h

/-- Copy does not change the stored elements. -/
lemma copy_ui (g : GridState) : (copy_selected_element g).ui_elements = g.ui_elements := by
  unfold copy_selected_element
  split <;> rfl

/-- Copy does not change the height. -/
lemma copy_height (g : GridState) : (copy_selected_element g).height = g.height := by
  unfold copy_selected_element
  split <;> rfl

/-- Copy followed by the press time assignment preserves the invariant. -/
lemma Inv_copy_dpt (g : GridState) (t : ℤ) (h : Inv g) :
    Inv { copy_selected_element g with delete_press_time := t } := by
  apply Inv_of_shapes _ g (copy_height g) ?_ h
  show List.map (fun kv => kv.2.shape) (copy_selected_element g).ui_elements
      = List.map (fun kv => kv.2.shape) g.ui_elements
  rw [copy_ui]

/-- The selection or paste fall through preserves the invariant. -/
lemma Inv_metaFallthrough (g : GridState) (e : Event) (h : Inv g) :
    Inv (metaFallthrough g e).1 := by
  unfold metaFallthrough
  split
  · split
    · split
      · exact h
      · exact Inv_of_shapes _ g rfl rfl h
    · split
      · exact Inv_paste _ _ _ h
      · split
        · exact h
        · exact h
  · exact h

/-- The selected element block preserves the invariant. -/
lemma Inv_handle_meta_selected (g : GridState) (e : Event) (h : Inv g) :
    Inv (handle_meta_selected g e).1 := by
  unfold handle_meta_selected
  split
  · rename_i sid el heq
    dsimp only
    split
    · exact Inv_of_shapes _ g rfl
        (updateElement_shapes g sid _ (fun u => adjust_shape u 1)) h
    · split
      · exact Inv_of_shapes _ g rfl
          (updateElement_shapes g sid _ (fun u => adjust_shape u (-1))) h
      · split
        · split
          · exact Inv_delete g h
          · exact Inv_copy_dpt g e.t h
        · exact Inv_metaFallthrough g e h
  · exact Inv_metaFallthrough g e h

/-- The history and buffer updates preserve the invariant. -/
lemma Inv_metaBufferUpdate (g : GridState) (e : Event) (h : Inv g) :
    Inv (metaBufferUpdate g e) := by
  unfold metaBufferUpdate
  dsimp only
  split
  · exact Inv_of_shapes _ g rfl rfl h
  · exact Inv_of_shapes _ g rfl rfl h

/-- The meta mode handler preserves the invariant. -/
lemma Inv_handle_meta (g : GridState) (e : Event) (h : Inv g) :
    Inv (handle_meta_interaction g e).1 := by
  unfold handle_meta_interaction
  split
  · exact h
  · exact Inv_handle_meta_selected _ e (Inv_metaBufferUpdate g e h)

/-- The normal mode handler preserves the invariant. -/
lemma Inv_handle_normal (g : GridState) (e : Event) (h : Inv g) :
    Inv (handle_normal_interaction g e) := by
  unfold handle_normal_interaction
  split
  · exact h
  · exact Inv_of_shapes _ g rfl (touchFirst_shapes g.ui_elements e.x e.y e.t e.s) h

/-- The meta key branch preserves the invariant. -/
lemma Inv_metaKeyStep (g : GridState) (h : Inv g) : Inv (metaKeyStep g).1 := by
  unfold metaKeyStep
  split
  · exact h
  · exact Inv_of_shapes _ (create_ui_element g) rfl rfl (Inv_create g h)

/-- One key event preserves the editor invariant. -/
lemma Inv_step (g : GridState) (e : Event) (h : Inv g) : Inv (on_grid_key g e).1 := by
  unfold on_grid_key
  split
  · exact h
  · split
    · exact Inv_metaKeyStep _ (Inv_of_shapes _ g rfl rfl h)
    · split
      · exact Inv_handle_meta g e h
      · exact Inv_handle_normal g e h

/-- Every reachable editor state satisfies the invariant. -/
lemma Inv_reachable (g : GridState) (h : Reachable g) : Inv g := by
  induction h with
  | init w hgt => exact Inv_of_nil _ rfl
  | step g e hg ih => exact Inv_step g e ih
  | reset g hg ih => exact Inv_of_nil _ rfl

/-- Runs of key events stay in the reachable set. -/
lemma reachable_runEvents (g : GridState) (h : Reachable g) (es : List Event) :
    Reachable (runEvents g es) := by
  induction es generalizing g with
  | nil => exact h
  | cons e rest ih =>
      simp only [runEvents, List.foldl_cons]
      exact ih _ (Reachable.step g e h)

/-- Paste does not touch the point buffer. -/
lemma paste_points (g : GridState) (x y : ℤ) :
    (paste_element g x y).current_points = g.current_points := by
  unfold paste_element
  split
  · rfl
  · dsimp only
    split <;> rfl

/-- The fall through block does not touch the point buffer. -/
lemma metaFallthrough_points (g : GridState) (e : Event) :
    ((metaFallthrough g e).1).current_points = g.current_points := by
  unfold metaFallthrough
  split
  · split
    · split <;> rfl
    · split
      · exact paste_points g e.x e.y
      · split <;> rfl
  · rfl

/-- Deletion does not touch the point buffer. -/
lemma delete_points (g : GridState) :
    (delete_selected_element g).current_points = g.current_points := by
  unfold delete_selected_element
  split <;> rfl

/-- Copy does not touch the point buffer. -/
lemma copy_points (g : GridState) :
    (copy_selected_element g).current_points = g.current_points := by
  unfold copy_selected_element
  split <;> rfl

/-- The selected element block does not touch the point buffer. -/
lemma handle_meta_selected_points (g : GridState) (e : Event) :
    ((handle_meta_selected g e).1).current_points = g.current_points := by
  unfold handle_meta_selected
  split
  · dsimp only
    split
    · rfl
    · split
      · rfl
      · split
        · split
          · exact delete_points g
          · exact copy_points g
        · exact metaFallthrough_points g e
  · exact metaFallthrough_points g e

/-- The opening mutations only append an absent coordinate to the buffer. -/
lemma metaBufferUpdate_points (g : GridState) (e : Event) :
    (metaBufferUpdate g e).current_points =
      if e.y < g.height - 1 ∧ (e.x, e.y) ∉ g.current_points
      then g.current_points ++ [(e.x, e.y)] else g.current_points := by
  unfold metaBufferUpdate
  dsimp only
  split <;> rfl

/-- Height is unchanged by the opening mutations. -/
lemma metaBufferUpdate_height (g : GridState) (e : Event) :
    (metaBufferUpdate g e).height = g.height := by
  unfold metaBufferUpdate
  dsimp only
  split <;> rfl

/-- The point buffer after the meta mode handler. -/
lemma handle_meta_points (g : GridState) (e : Event) :
    ((handle_meta_interaction g e).1).current_points =
      if e.s = 1 ∧ e.y < g.height - 1 ∧ (e.x, e.y) ∉ g.current_points
      then g.current_points ++ [(e.x, e.y)] else g.current_points := by
  unfold handle_meta_interaction
  split
  · rename_i hs
    rw [if_neg (fun hc => hs hc.1)]
  · rename_i hs
    rw [handle_meta_selected_points, metaBufferUpdate_points]
    have hs1 : e.s = 1 := not_not.mp hs
    by_cases hc : e.y < g.height - 1 ∧ (e.x, e.y) ∉ g.current_points
    · rw [if_pos hc, if_pos ⟨hs1, hc.1, hc.2⟩]
    · rw [if_neg hc, if_neg (fun hcc => hc ⟨hcc.2.1, hcc.2.2⟩)]

/-- The normal mode handler does not touch the point buffer. -/
lemma handle_normal_points (g : GridState) (e : Event) :
    (handle_normal_interaction g e).current_points = g.current_points := by
  unfold handle_normal_interaction
  split <;> rfl

/-- The meta key branch keeps or clears the point buffer. -/
lemma metaKeyStep_points (g : GridState) :
    ((metaKeyStep g).1).current_points = g.current_points ∨
    ((metaKeyStep g).1).current_points = [] := by
  unfold metaKeyStep
  split
  · exact Or.inl rfl
  · exact Or.inr rfl

/-- One key event preserves freedom from duplicates in the point buffer. -/
lemma nodup_step (g : GridState) (e : Event) (h : g.current_points.Nodup) :
    ((on_grid_key g e).1).current_points.Nodup := by
  unfold on_grid_key
  split
  · exact h
  · split
    · rcases metaKeyStep_points { g with meta_pressed := decide (e.s = 1) } with he | he
      · rw [he]; exact h
      · rw [he]; exact List.nodup_nil
    · split
      · rw [handle_meta_points]
        split
        · rename_i hc
          refine List.Nodup.append h (List.nodup_singleton _) ?_
          intro a ha hb
          rw [List.mem_singleton] at hb
          subst hb
          exact hc.2.2 ha
        · exact h
      · rw [handle_normal_points]; exact h

/-- The point buffer of a reachable state has no duplicates. -/
lemma nodup_reachable (g : GridState) (h : Reachable g) : g.current_points.Nodup := by
  induction h with
  | init w hgt => exact List.nodup_nil
  | step g e hg ih => exact nodup_step g e ih
  | reset g hg ih => exact List.nodup_nil

/-- C1, counterexample: on an 8 by 8 grid in normal mode, pressing (1,1)
and then releasing at (3,3) neither buffers any point nor creates any
control — the control map and the point buffer both end empty, where the
claim demands a Rectangle backed Trigger spanning (1,1) to (3,3). -/
theorem c1_counterexample :
    (runEvents (initState 8 8) traceC1cex).ui_elements = [] ∧
    (runEvents (initState 8 8) traceC1cex).current_points = [] := by
  constructor <;> rfl

/-- C1, amended: normal mode key events never modify the in-progress point
buffer; the buffer is filled by meta mode key-downs and creation happens
when the meta key is released (two buffered points give a Rectangle backed
Trigger).  On an 8 by 8 grid, holding the meta key, pressing (1,1) then
(3,3) and releasing the meta key creates a Rectangle Trigger spanning
(1,1) to (3,3), and a subsequent normal press at (2,2) toggles its state
to 1. -/
theorem c1_amended_meta_gesture_creates_rectangle :
    (∀ (g : GridState) (e : Event),
        (handle_normal_interaction g e).current_points = g.current_points) ∧
    (runEvents (initState 8 8) traceC1meta).ui_elements.map
        (fun kv => (kv.2.etype, kv.2.shape.kind, kv.2.shape.points, kv.2.state))
      = [(UIElementType.trigger, ShapeKind.rectangle,
          [((1 : ℤ), (1 : ℤ)), (3, 3)], 1)] := by
  exact ⟨handle_normal_points, by rfl⟩

/-- C3, counterexample: on an 8 by 8 grid, holding the meta key and
pressing (0,0) where no control exists creates nothing and selects
nothing — the press coordinate is merely buffered — where the claim
demands an immediately created and selected single point Trigger. -/
theorem c3_counterexample :
    (runEvents (initState 8 8) traceC3cex).ui_elements = [] ∧
    (runEvents (initState 8 8) traceC3cex).selected_element = none ∧
    (runEvents (initState 8 8) traceC3cex).current_points = [((0 : ℤ), (0 : ℤ))] := by
  exact ⟨rfl, rfl, rfl⟩

/-- C3, amended: such a meta mode press only appends the coordinate to the
in-progress point buffer; the single point Trigger control at that
coordinate is created when the meta key is later released with the buffer
holding exactly that point, and the selection is left empty. -/
theorem c3_amended_press_buffers_and_release_creates :
    (runEvents (initState 8 8) traceC3meta).ui_elements.map
        (fun kv => (kv.2.etype, kv.2.shape.kind, kv.2.shape.points))
      = [(UIElementType.trigger, ShapeKind.point, [((0 : ℤ), (0 : ℤ))])] ∧
    (runEvents (initState 8 8) traceC3meta).selected_element = none := by
  exact ⟨rfl, rfl⟩

/-- C4, counterexample: a degenerate triangle whose three recorded
vertices coincide at (0,0) reports every query point as contained — here
(5,7) — where the claim demands false for every degenerate triangle. -/
theorem c4_counterexample :
    Shape.contains_point ⟨ShapeKind.triangle, [(0, 0), (0, 0), (0, 0)]⟩ 5 7 = true := by
  rfl

/-- C4, amended: a triangle with fewer than 3 recorded vertices reports
not contained for every query point, without failing; triangles with 3
collinear or duplicate vertices are not rejected, and the sign test can
report containment for them (for example, the collinear triangle (0,0),
(1,0), (2,0) reports the collinear query point (3,0) as contained). -/
theorem c4_amended_short_triangle_never_contains :
    (∀ (pts : List Pt) (x y : ℤ), pts.length < 3 →
        Shape.contains_point ⟨ShapeKind.triangle, pts⟩ x y = false) ∧
    Shape.contains_point ⟨ShapeKind.triangle, [(0, 0), (1, 0), (2, 0)]⟩ 3 0 = true := by
  constructor
  · intro pts x y hlen
    unfold Shape.contains_point
    dsimp only
    rw [if_pos hlen]
  · rfl

/-- Witness for the amended C4 theorem at a one vertex triangle. -/
theorem c4_amended_short_triangle_never_contains_witness :
    [((0 : ℤ), (0 : ℤ))].length < 3 ∧
    Shape.contains_point ⟨ShapeKind.triangle, [((0 : ℤ), (0 : ℤ))]⟩ 9 9 = false :=
  ⟨by decide, c4_amended_short_triangle_never_contains.1 [((0 : ℤ), (0 : ℤ))] 9 9 (by decide)⟩

/-- C8: the claim says no key event handling raises; in the code,
deselecting (selecting another control or pressing an empty cell while a
control is selected in meta mode) calls the undefined method
reset_brightness, so the handler raises AttributeError.  On an 8 by 8
grid: create a control at (2,2), select it in meta mode, then press the
empty cell (5,5): the run reports a raised exception. -/
theorem c8_deselect_raises :
    runEventsErr (initState 8 8) traceC8 = true := by
  rfl

/-- C9: reset clears the control map, the point buffer, the meta history,
the meta flag, the selection and the press timing state, and preserves the
clipboard exactly. -/
theorem c9_reset_clears_state_and_keeps_clipboard (g : GridState) :
    g.reset.ui_elements = [] ∧ g.reset.current_points = [] ∧
    g.reset.meta_history = [] ∧ g.reset.meta_pressed = false ∧
    g.reset.selected_element = none ∧ g.reset.delete_press_time = 0 ∧
    g.reset.delete_press_count = 0 ∧ g.reset.paste_buffer = g.paste_buffer :=
  ⟨rfl, rfl, rfl, rfl, rfl, rfl, rfl, rfl⟩

/-- C2: in every editor state reachable from the initial or reset state by
key events, no live control has a shape vertex in the reserved bottom row,
and the overlap test returns false for every pair of distinct live
controls; the adding operations preserve this because both creation and
paste are guarded by the bottom row and overlap checks. -/
theorem c2_live_controls_off_bottom_row_and_disjoint (g : GridState)
    (h : Reachable g) :
    (∀ kv ∈ g.ui_elements, ∀ p ∈ kv.2.shape.points, p.2 ≠ g.height - 1) ∧
    ∀ i j : Fin g.ui_elements.length, i ≠ j →
      check_overlap (g.ui_elements.get i).2 (g.ui_elements.get j).2 = false := by
  have hrow := (Inv_reachable g h).1
  have hpair := (Inv_reachable g h).2
  constructor
  · intro kv hkv p hp
    exact hrow kv.2.shape (List.mem_map.mpr ⟨kv, hkv, rfl⟩) p hp
  · have hp2 : g.ui_elements.Pairwise
        (fun a b => shapes_overlap a.2.shape b.2.shape = false) := by
      unfold shapesOf at hpair
      rwa [List.pairwise_map] at hpair
    intro i j hij
    rcases hij.lt_or_lt with hlt | hlt
    · exact (List.pairwise_iff_get.mp hp2) i j hlt
    · have hji := (List.pairwise_iff_get.mp hp2) j i hlt
      unfold check_overlap
      rw [shapes_overlap_symm]
      exact hji

/-- Witness for the C2 theorem at the reachable state holding the
rectangle created by the meta gesture of the C1 scenario. -/
theorem c2_live_controls_off_bottom_row_and_disjoint_witness :
    (∀ kv ∈ (runEvents (initState 8 8) traceC2w).ui_elements,
        ∀ p ∈ kv.2.shape.points,
          p.2 ≠ (runEvents (initState 8 8) traceC2w).height - 1) ∧
    ∀ i j : Fin (runEvents (initState 8 8) traceC2w).ui_elements.length, i ≠ j →
      check_overlap ((runEvents (initState 8 8) traceC2w).ui_elements.get i).2
        ((runEvents (initState 8 8) traceC2w).ui_elements.get j).2 = false :=
  c2_live_controls_off_bottom_row_and_disjoint _
    (reachable_runEvents _ (Reachable.init 8 8) traceC2w)

/-- C10: the in-progress point buffer of a reachable state never holds the
same coordinate twice, and a meta mode key-down on a coordinate already in
the buffer leaves the buffer unchanged. -/
theorem c10_point_buffer_has_no_duplicates (g : GridState) (e : Event)
    (h : Reachable g) (hm : g.meta_pressed = true) (hs : e.s = 1)
    (hcell : ¬(e.x = 0 ∧ e.y = g.height - 1))
    (hmem : (e.x, e.y) ∈ g.current_points) :
    g.current_points.Nodup ∧
    ((on_grid_key g e).1).current_points = g.current_points := by
  refine ⟨nodup_reachable g h, ?_⟩
  unfold on_grid_key
  by_cases hcn : g.connected = false
  · rw [if_pos hcn]
  · rw [if_neg hcn, if_neg hcell, if_pos hm, handle_meta_points,
        if_neg (fun hcc => hcc.2.2 hmem)]

/-- Witness for the C10 theorem: after holding the meta key and pressing
(2,2) once, pressing (2,2) again leaves the one entry buffer unchanged. -/
theorem c10_point_buffer_has_no_duplicates_witness :
    (runEvents (initState 8 8) traceC10w).meta_pressed = true ∧
    ((2 : ℤ), (2 : ℤ)) ∈ (runEvents (initState 8 8) traceC10w).current_points ∧
    (runEvents (initState 8 8) traceC10w).current_points.Nodup ∧
    ((on_grid_key (runEvents (initState 8 8) traceC10w) (ev 2 2 1 1)).1).current_points
      = (runEvents (initState 8 8) traceC10w).current_points :=
  ⟨by decide, by decide,
   c10_point_buffer_has_no_duplicates _ (ev 2 2 1 1)
     (reachable_runEvents _ (Reachable.init 8 8) traceC10w)
     (by decide) (by decide) (by decide) (by decide)⟩

/-- C6, counterexample: after copying the control stored under key 1 with
id field 1 and pasting it at (5,5), the two live controls both carry id
field 1 — the pasted clone keeps the id of the original, where the claim
demands an id distinct from the id of every live control including the
original. -/
theorem c6_counterexample :
    (runEvents (initState 8 8) traceC6).ui_elements.map (fun kv => kv.2.id)
      = [1, 1] := by
  decide

/-- C6, amended: a successful paste appends exactly one new entry to the
control map, stored under a freshly generated key distinct from every live
key (including the key of the original) and selected; the shape of the
clone is the clipboard shape translated so that its first point lands on
the target; but the id field of the clone keeps the id of the original
(the fresh identifier is used only as the map key). -/
theorem c6_amended_paste_appends_translated_clone (g : GridState) (x y : ℤ)
    (buf : UIElement)
    (hb : g.paste_buffer = some buf)
    (hrow : element_in_bottom_row g (pasteMoved buf x y) = false)
    (hov : elements_overlap g (pasteMoved buf x y) = false) :
    paste_element g x y =
      { g with ui_elements := g.ui_elements ++ [(generate_unique_id (keys g), pasteMoved buf x y)], selected_element := some (generate_unique_id (keys g)) } ∧
    generate_unique_id (keys g) ∉ keys g ∧
    (pasteMoved buf x y).shape.points
      = buf.shape.points.map (fun p =>
          (p.1 + (x - buf.shape.points.headI.1),
           p.2 + (y - buf.shape.points.headI.2))) ∧
    (pasteMoved buf x y).id = buf.id := by
  refine ⟨?_, generate_unique_id_not_mem _, rfl, rfl⟩
  unfold paste_element
  rw [hb]
  dsimp only
  rw [hrow, hov]
  rfl

/-- Witness for the amended C6 theorem: pasting the copied point control
of gW6 at (5,5). -/
theorem c6_amended_paste_appends_translated_clone_witness :
    gW6.paste_buffer = some elemW ∧
    element_in_bottom_row gW6 (pasteMoved elemW 5 5) = false ∧
    elements_overlap gW6 (pasteMoved elemW 5 5) = false ∧
    (paste_element gW6 5 5 =
      { gW6 with ui_elements := gW6.ui_elements ++ [(generate_unique_id (keys gW6), pasteMoved elemW 5 5)], selected_element := some (generate_unique_id (keys gW6)) } ∧
     generate_unique_id (keys gW6) ∉ keys gW6 ∧
     (pasteMoved elemW 5 5).shape.points
       = elemW.shape.points.map (fun p =>
           (p.1 + (5 - elemW.shape.points.headI.1),
            p.2 + (5 - elemW.shape.points.headI.2))) ∧
     (pasteMoved elemW 5 5).id = elemW.id) :=
  ⟨rfl, by decide, by decide,
   c6_amended_paste_appends_translated_clone gW6 5 5 elemW rfl (by decide) (by decide)⟩

/-- C7: a paste attempt whose translated clone would touch the bottom row
or overlap an existing control is rejected and leaves the whole editor
state — in particular the control map, the selection and the clipboard —
exactly unchanged, raising nothing. -/
theorem c7_rejected_paste_leaves_state_unchanged (g : GridState) (x y : ℤ)
    (buf : UIElement)
    (hb : g.paste_buffer = some buf)
    (hrej : element_in_bottom_row g (pasteMoved buf x y) = true ∨
            elements_overlap g (pasteMoved buf x y) = true) :
    paste_element g x y = g := by
  unfold paste_element
  rw [hb]
  dsimp only
  rcases hrej with hr | hr <;> rw [hr] <;> simp

/-- Witness for the C7 theorem: pasting the copied point control of gW6 at
the bottom row cell (0,7) is rejected and changes nothing. -/
theorem c7_rejected_paste_leaves_state_unchanged_witness :
    gW6.paste_buffer = some elemW ∧
    (element_in_bottom_row gW6 (pasteMoved elemW 0 7) = true ∨
     elements_overlap gW6 (pasteMoved elemW 0 7) = true) ∧
    paste_element gW6 0 7 = gW6 :=
  ⟨rfl, Or.inl (by decide),
   c7_rejected_paste_leaves_state_unchanged gW6 0 7 elemW rfl (Or.inl (by decide))⟩

/-- The opening mutations keep the stored elements. -/
lemma metaBufferUpdate_ui (g : GridState) (e : Event) :
    (metaBufferUpdate g e).ui_elements = g.ui_elements := by
  unfold metaBufferUpdate
  dsimp only
  split <;> rfl

/-- The opening mutations keep the selection. -/
lemma metaBufferUpdate_selected (g : GridState) (e : Event) :
    (metaBufferUpdate g e).selected_element = g.selected_element := by
  unfold metaBufferUpdate
  dsimp only
  split <;> rfl

/-- The opening mutations keep the press timing state. -/
lemma metaBufferUpdate_dpt (g : GridState) (e : Event) :
    (metaBufferUpdate g e).delete_press_time = g.delete_press_time := by
  unfold metaBufferUpdate
  dsimp only
  split <;> rfl

/-- The opening mutations keep the clipboard. -/
lemma metaBufferUpdate_pb (g : GridState) (e : Event) :
    (metaBufferUpdate g e).paste_buffer = g.paste_buffer := by
  unfold metaBufferUpdate
  dsimp only
  split <;> rfl

/-- The opening mutations keep the width. -/
lemma metaBufferUpdate_width (g : GridState) (e : Event) :
    (metaBufferUpdate g e).width = g.width := by
  unfold metaBufferUpdate
  dsimp only
  split <;> rfl

/-- The opening mutations update the history deque. -/
lemma metaBufferUpdate_history (g : GridState) (e : Event) :
    (metaBufferUpdate g e).meta_history = dequeAppend g.meta_history (e.x, e.y) := by
  unfold metaBufferUpdate
  dsimp only
  split <;> rfl

/-- The lookup only reads the stored elements. -/
lemma lookupElement_congr (g1 g2 : GridState) (h : g1.ui_elements = g2.ui_elements)
    (i : ℕ) : lookupElement g1 i = lookupElement g2 i := by
  unfold lookupElement
  rw [h]

/-- The meta UI position only reads the grid dimensions and the element. -/
lemma get_meta_ui_position_congr (g1 g2 : GridState) (e : UIElement)
    (hw : g1.width = g2.width) (hh : g1.height = g2.height) :
    get_meta_ui_position g1 e = get_meta_ui_position g2 e := by
  unfold get_meta_ui_position
  rw [hw, hh]

/-- Deletion with a selection removes the selected entry. -/
lemma delete_ui (g : GridState) (sid : ℕ) (hsel : g.selected_element = some sid) :
    (delete_selected_element g).ui_elements
      = g.ui_elements.eraseP (fun kv => kv.1 == sid) := by
  unfold delete_selected_element
  rw [hsel]

/-- Deletion with a selection clears the selection. -/
lemma delete_sel (g : GridState) (sid : ℕ) (hsel : g.selected_element = some sid) :
    (delete_selected_element g).selected_element = none := by
  unfold delete_selected_element
  rw [hsel]

/-- Deletion never touches the press timing state. -/
lemma delete_dpt (g : GridState) :
    (delete_selected_element g).delete_press_time = g.delete_press_time := by
  unfold delete_selected_element
  split <;> rfl

/-- Deletion never touches the clipboard. -/
lemma delete_pb (g : GridState) :
    (delete_selected_element g).paste_buffer = g.paste_buffer := by
  unfold delete_selected_element
  split <;> rfl

/-- Copy with a resolvable selection fills the clipboard with the selected
element. -/
lemma copy_pb (g : GridState) (sid : ℕ) (el : UIElement)
    (hsel : g.selected_element = some sid) (hlook : lookupElement g sid = some el) :
    (copy_selected_element g).paste_buffer = some el := by
  unfold copy_selected_element
  rw [hsel, Option.some_bind, hlook]

/-- Copy keeps the selection. -/
lemma copy_sel (g : GridState) :
    (copy_selected_element g).selected_element = g.selected_element := by
  unfold copy_selected_element
  split <;> rfl

/-- The copy or delete cell branch of the selected element block. -/
lemma handle_meta_selected_copy_delete (g : GridState) (e : Event) (sid : ℕ)
    (el : UIElement)
    (hsel : g.selected_element = some sid)
    (hlook : lookupElement g sid = some el)
    (hm1 : (e.x, e.y) ≠ get_meta_ui_position g el)
    (hm2 : (e.x, e.y) ≠ ((get_meta_ui_position g el).1 + 1, (get_meta_ui_position g el).2))
    (hx : e.x = 1) (hy : e.y = g.height - 1) :
    handle_meta_selected g e =
      if e.t - g.delete_press_time < 500 then (delete_selected_element g, false)
      else ({ copy_selected_element g with delete_press_time := e.t }, false) := by
  unfold handle_meta_selected
  rw [hsel, Option.some_bind, hlook, Option.map_some']
  dsimp only
  rw [if_neg hm1, if_neg hm2, if_pos (by rw [hx, hy])]

/-- C5, counterexample: on an 8 by 8 grid, create two point controls at
(2,2) and (5,5); select the first, copy it at time 10000, delete it at
time 10400, select the second, and press the copy and delete cell at time
10800.  The cell was last activated 400 milliseconds ago (the delete), so
the claim demands a delete that would empty the map of the second control;
the code instead measures from the copy at 10000 (the delete never updated
the timing state) and copies, leaving the second control live and placing
its copy in the clipboard. -/
theorem c5_counterexample :
    (runEvents (initState 8 8) traceC5).ui_elements.map
        (fun kv => (kv.1, kv.2.shape.points)) = [(2, [((5 : ℤ), (5 : ℤ))])] ∧
    (runEvents (initState 8 8) traceC5).paste_buffer.map
        (fun el => el.shape.points) = some [((5 : ℤ), (5 : ℤ))] := by
  exact ⟨by decide, by decide⟩

/-- C5, amended: in meta mode with a control selected, a press on the copy
and delete cell deletes the selected control when less than 500
milliseconds elapsed since the stored press time, and otherwise copies it
into the clipboard; the stored press time is updated only by a copy (a
delete leaves it untouched, and it starts at zero), so the elapsed time is
measured from the cell activation that last performed a copy, not from the
last activation as such. -/
theorem c5_amended_copy_delete_timing (g : GridState) (e : Event) (sid : ℕ)
    (el : UIElement)
    (hs : e.s = 1)
    (hsel : g.selected_element = some sid)
    (hlook : lookupElement g sid = some el)
    (hx : e.x = 1) (hy : e.y = g.height - 1)
    (hm1 : (e.x, e.y) ≠ get_meta_ui_position g el)
    (hm2 : (e.x, e.y) ≠ ((get_meta_ui_position g el).1 + 1, (get_meta_ui_position g el).2)) :
    if e.t - g.delete_press_time < 500 then
      (handle_meta_interaction g e).1.ui_elements
          = g.ui_elements.eraseP (fun kv => kv.1 == sid) ∧
      (handle_meta_interaction g e).1.selected_element = none ∧
      (handle_meta_interaction g e).1.delete_press_time = g.delete_press_time ∧
      (handle_meta_interaction g e).1.paste_buffer = g.paste_buffer
    else
      (handle_meta_interaction g e).1.ui_elements = g.ui_elements ∧
      (handle_meta_interaction g e).1.paste_buffer = some el ∧
      (handle_meta_interaction g e).1.delete_press_time = e.t ∧
      (handle_meta_interaction g e).1.selected_element = some sid := by
  have hsel2 : (metaBufferUpdate g e).selected_element = some sid := by
    rw [metaBufferUpdate_selected]; exact hsel
  have hlook2 : lookupElement (metaBufferUpdate g e) sid = some el := by
    rw [lookupElement_congr _ g (metaBufferUpdate_ui g e) sid]; exact hlook
  have hposc : get_meta_ui_position (metaBufferUpdate g e) el
      = get_meta_ui_position g el :=
    get_meta_ui_position_congr _ g el (metaBufferUpdate_width g e)
      (metaBufferUpdate_height g e)
  have hy2 : e.y = (metaBufferUpdate g e).height - 1 := by
    rw [metaBufferUpdate_height]; exact hy
  have hstep : (handle_meta_interaction g e).1 =
      if e.t - g.delete_press_time < 500 then
        delete_selected_element (metaBufferUpdate g e)
      else { copy_selected_element (metaBufferUpdate g e) with delete_press_time := e.t } := by
    unfold handle_meta_interaction
    rw [if_neg (not_not_intro hs)]
    rw [handle_meta_selected_copy_delete (metaBufferUpdate g e) e sid el hsel2 hlook2
        (hposc ▸ hm1) (hposc ▸ hm2) hx hy2]
    rw [metaBufferUpdate_dpt, apply_ite Prod.fst]
  rw [hstep]
  split
  · refine ⟨?_, ?_, ?_, ?_⟩
    · rw [delete_ui _ sid hsel2, metaBufferUpdate_ui]
    · rw [delete_sel _ sid hsel2]
    · rw [delete_dpt, metaBufferUpdate_dpt]
    · rw [delete_pb, metaBufferUpdate_pb]
  · refine ⟨?_, ?_, rfl, ?_⟩
    · show (copy_selected_element (metaBufferUpdate g e)).ui_elements = g.ui_elements
      rw [copy_ui, metaBufferUpdate_ui]
    · show (copy_selected_element (metaBufferUpdate g e)).paste_buffer = some el
      rw [copy_pb _ sid el hsel2 hlook2]
    · show (copy_selected_element (metaBufferUpdate g e)).selected_element = some sid
      rw [copy_sel, metaBufferUpdate_selected]; exact hsel

/-- Witness for the amended C5 theorem: in gW5 (last copy at time 10000) a
press on the copy and delete cell at time 10500 falls on the boundary, is
not within the 500 millisecond window, and therefore copies. -/
theorem c5_amended_copy_delete_timing_witness :
    (gW5.selected_element = some 1 ∧ lookupElement gW5 1 = some elemW ∧
     (((1 : ℤ), (7 : ℤ)) ≠ get_meta_ui_position gW5 elemW)) ∧
    (if (ev 1 7 1 10500).t - gW5.delete_press_time < 500 then
      (handle_meta_interaction gW5 (ev 1 7 1 10500)).1.ui_elements
          = gW5.ui_elements.eraseP (fun kv => kv.1 == 1) ∧
      (handle_meta_interaction gW5 (ev 1 7 1 10500)).1.selected_element = none ∧
      (handle_meta_interaction gW5 (ev 1 7 1 10500)).1.delete_press_time
          = gW5.delete_press_time ∧
      (handle_meta_interaction gW5 (ev 1 7 1 10500)).1.paste_buffer = gW5.paste_buffer
    else
      (handle_meta_interaction gW5 (ev 1 7 1 10500)).1.ui_elements = gW5.ui_elements ∧
      (handle_meta_interaction gW5 (ev 1 7 1 10500)).1.paste_buffer = some elemW ∧
      (handle_meta_interaction gW5 (ev 1 7 1 10500)).1.delete_press_time
          = (ev 1 7 1 10500).t ∧
      (handle_meta_interaction gW5 (ev 1 7 1 10500)).1.selected_element = some 1) :=
  ⟨⟨rfl, by decide, by decide⟩,
   c5_amended_copy_delete_timing gW5 (ev 1 7 1 10500) 1 elemW rfl rfl (by decide)
     rfl (by decide) (by decide) (by decide)⟩

/-- Witness for the amended C1 theorem: a concrete normal mode press at
(2,2) leaves the point buffer of the fresh 8 by 8 session unchanged. -/
theorem c1_amended_meta_gesture_creates_rectangle_witness :
    (handle_normal_interaction (initState 8 8) (ev 2 2 1 0)).current_points
      = (initState 8 8).current_points :=
  c1_amended_meta_gesture_creates_rectangle.1 (initState 8 8) (ev 2 2 1 0)

/-- Witness for the C9 theorem at the concrete state gW6, whose clipboard
holds a control. -/
theorem c9_reset_clears_state_and_keeps_clipboard_witness :
    gW6.reset.ui_elements = [] ∧ gW6.reset.current_points = [] ∧
    gW6.reset.meta_history = [] ∧ gW6.reset.meta_pressed = false ∧
    gW6.reset.selected_element = none ∧ gW6.reset.delete_press_time = 0 ∧
    gW6.reset.delete_press_count = 0 ∧ gW6.reset.paste_buffer = gW6.paste_buffer :=
  c9_reset_clears_state_and_keeps_clipboard gW6

end GridSpec
